import Mathlib

/-!
Verification development for the JUST-SAY-IT voice-to-text repository.

The Python sources are shallowly embedded:
* Python `str` is modelled as `List Char` (`PyStr`); string literals enter
  through `String.data`.
* Python `set` is modelled as `Finset`.
* Wall-clock timestamps (`time.time()`, float seconds) are modelled as
  integers counting milliseconds, so the 0.5-second debounce delay is the
  integer 500; audio sample values (numpy `float32`) are modelled as `ℤ` and
  the computed recording duration as `ℚ`.
* I/O effects (logging, sound playback, the temp-file write in
  `save_recording`) are elided; the value that the effectful code computes and
  hands on is modelled directly.
-/

/-- Python strings are modelled as lists of characters. -/
abbrev PyStr := List Char

/-- Python `str.strip()` (drop leading and trailing whitespace). -/
def pyStrip (s : PyStr) : PyStr :=
  ((s.dropWhile Char.isWhitespace).reverse.dropWhile Char.isWhitespace).reverse

/-- `startsWithChars hay needle` : `needle` is a leading segment of `hay`. -/
def startsWithChars : List Char → List Char → Bool
  | _, [] => true
  | [], _ :: _ => false
  | c :: cs, n :: ns => c == n && startsWithChars cs ns

/-- Python `needle in hay` substring test on strings. -/
def strContains : PyStr → PyStr → Bool
  | [], needle => needle.isEmpty
  | c :: cs, needle => startsWithChars (c :: cs) needle || strContains cs needle

/-- Python `s.split('+')`. -/
def splitPlus : PyStr → List PyStr
  | [] => [[]]
  | c :: rest =>
    let r := splitPlus rest
    if c = '+' then [] :: r
    else (c :: r.headD []) :: r.tail

/-- Keyboard keys as seen by `hotkey_detector.py`: the `pynput` special keys
the parser knows about, plus character keys (Python adds the one-character
string itself, which identifies the key with its character). -/
inductive Key
  | ctrl_l | ctrl_r | alt_l | alt_r | shift_l | shift_r
  | cmd | space | tab | enter
  | char (c : Char)
deriving DecidableEq, Repr

/-- One `+`-separated part of the hotkey string, handled exactly as one
iteration of the loop in `HotkeyDetector._parse_hotkey`. -/
def addPart (keys : Finset Key) (rawPart : PyStr) : Finset Key :=
  let part := pyStrip rawPart
  if part = "ctrl".data then insert Key.ctrl_r (insert Key.ctrl_l keys)
  else if part = "alt".data then insert Key.alt_r (insert Key.alt_l keys)
  else if part = "shift".data then insert Key.shift_r (insert Key.shift_l keys)
  else if part = "cmd".data ∨ part = "super".data then insert Key.cmd keys
  else if part = "space".data then insert Key.space keys
  else if part = "tab".data then insert Key.tab keys
  else if part = "enter".data then insert Key.enter keys
  else
    match part with
    | [c] => insert (Key.char c) keys
    | _ => keys

/-- `HotkeyDetector._parse_hotkey`: lower-case the string, strip `<` and `>`,
split on `+`, and accumulate the recognised keys into a set. -/
def parseHotkey (hotkeyString : PyStr) : Finset Key :=
  let cleaned := (hotkeyString.map Char.toLower).filter fun c => ¬(c = '<' ∨ c = '>')
  (splitPlus cleaned).foldl addPart ∅

/-- `HotkeyDetector._on_press` set update: character keys are added as their
lower-cased character, special keys are added as themselves. -/
def pressKey (pressed : Finset Key) : Key → Finset Key
  | Key.char c => insert (Key.char c.toLower) pressed
  | k => insert k pressed

/-- `HotkeyDetector._on_release` set update: `set.discard`, a no-op when the
key was never recorded as down. -/
def releaseKey (pressed : Finset Key) : Key → Finset Key
  | Key.char c => (pressed).erase (Key.char c.toLower)
  | k => (pressed).erase k

/-- The `matched_keys` computation of `_check_hotkey_combination` for one
required key: exact membership for character keys; for a modifier, membership
or the either-side check of the matching `elif` branch.  The source computes
this set (and a `required_count` adjusted for left/right duplication) but never
uses either to gate firing. -/
def codeMatched (pressed : Finset Key) : Key → Bool
  | Key.char c => decide (Key.char c ∈ pressed)
  | k =>
    decide (k ∈ pressed) ||
    ((k == Key.ctrl_l || k == Key.ctrl_r) &&
      (decide (Key.ctrl_l ∈ pressed) || decide (Key.ctrl_r ∈ pressed))) ||
    ((k == Key.alt_l || k == Key.alt_r) &&
      (decide (Key.alt_l ∈ pressed) || decide (Key.alt_r ∈ pressed))) ||
    ((k == Key.shift_l || k == Key.shift_r) &&
      (decide (Key.shift_l ∈ pressed) || decide (Key.shift_r ∈ pressed)))

/-- The firing decision of `HotkeyDetector._check_hotkey_combination`.  The
`matched_keys` / `required_count` arithmetic computed earlier in the source
function is dead code — the call to `_trigger_callback` is gated solely by the
literal test below: the hotkey *string* must contain `ctrl`, `alt` and `v` as
substrings, and a ctrl variant, an alt variant and the character `v` must be
in the pressed set. -/
def checkHotkeyCombination (hotkeyString : PyStr) (pressed : Finset Key) : Bool :=
  let hotkeyLower := hotkeyString.map Char.toLower
  if strContains hotkeyLower "ctrl".data && strContains hotkeyLower "alt".data &&
      strContains hotkeyLower "v".data then
    (decide (Key.ctrl_l ∈ pressed) || decide (Key.ctrl_r ∈ pressed)) &&
    (decide (Key.alt_l ∈ pressed) || decide (Key.alt_r ∈ pressed)) &&
    decide (Key.char 'v' ∈ pressed)
  else
    false

/-- `HotkeyDetector.debounce_delay`: 0.5 seconds, i.e. 500 in the
integer-millisecond time model. -/
def debounceDelay : ℤ := 500

/-- The mutable detector state: `pressed_keys` and `last_trigger_time`
(initially `0`). -/
structure DetectorState where
  pressed : Finset Key
  lastTriggerTime : ℤ
deriving DecidableEq

def initDetector : DetectorState := ⟨∅, 0⟩

/-- `HotkeyDetector._trigger_callback`: fire iff
`now - last_trigger_time >= debounce_delay`, updating `last_trigger_time`
exactly on the firing path.  Returns the new state and whether the callback
(the Trigger) was invoked. -/
def triggerCallback (st : DetectorState) (now : ℤ) : DetectorState × Bool :=
  if debounceDelay ≤ now - st.lastTriggerTime then
    ({ st with lastTriggerTime := now }, true)
  else
    (st, false)

inductive KeyEdge | down | up
deriving DecidableEq, Repr

/-- A raw key event with the wall-clock time at which the handler runs
(`time.time()` inside `_check_hotkey_combination`). -/
structure KeyEvent where
  time : ℤ
  edge : KeyEdge
  key : Key
deriving DecidableEq

/-- One key event through `_on_press` / `_on_release`: update the pressed set;
on a press, re-evaluate the combination and possibly fire the debounced
trigger.  Releases never fire. -/
def onKeyEvent (hotkeyString : PyStr) (st : DetectorState) (e : KeyEvent) :
    DetectorState × Bool :=
  match e.edge with
  | KeyEdge.up => ({ st with pressed := releaseKey st.pressed e.key }, false)
  | KeyEdge.down =>
    let pressed := pressKey st.pressed e.key
    if checkHotkeyCombination hotkeyString pressed then
      triggerCallback { st with pressed := pressed } e.time
    else
      ({ st with pressed := pressed }, false)

/-- Run a list of key events, collecting the times at which a Trigger fired. -/
def runDetector (hotkeyString : PyStr) (st : DetectorState) :
    List KeyEvent → DetectorState × List ℤ
  | [] => (st, [])
  | e :: rest =>
    let out := onKeyEvent hotkeyString st e
    let rec' := runDetector hotkeyString out.1 rest
    (rec'.1, (if out.2 then [e.time] else []) ++ rec'.2)

/-- Modelled from the spec (§4.1 match predicate): a required `KeyIdentifier`
is satisfied by the pressed set when a plain character is exactly present, and
a modifier is present in either its left or right variant. -/
def specSatisfies (pressed : Finset Key) : Key → Bool
  | Key.ctrl_l => decide (Key.ctrl_l ∈ pressed) || decide (Key.ctrl_r ∈ pressed)
  | Key.ctrl_r => decide (Key.ctrl_l ∈ pressed) || decide (Key.ctrl_r ∈ pressed)
  | Key.alt_l => decide (Key.alt_l ∈ pressed) || decide (Key.alt_r ∈ pressed)
  | Key.alt_r => decide (Key.alt_l ∈ pressed) || decide (Key.alt_r ∈ pressed)
  | Key.shift_l => decide (Key.shift_l ∈ pressed) || decide (Key.shift_r ∈ pressed)
  | Key.shift_r => decide (Key.shift_l ∈ pressed) || decide (Key.shift_r ∈ pressed)
  | k => decide (k ∈ pressed)

/-! ## AudioManager (`audio_manager.py`)

Audio samples are modelled as `ℤ` values and a numpy block (`indata`) as a
`List ℤ` whose length is its frame count (the channel dimension is elided;
`len` of a 2-d numpy array is its first axis, the frame count, so lengths
agree).  The temp-file write in `save_recording` is elided: the
`RecordingArtifact` below stands for the contents of the file whose path the
source returns, and the artifact's absence (`none`) for the `None` returns. -/

/-- A finished recording: the concatenated samples and the duration that
`save_recording` computes and logs (`len(recording) / self.sample_rate`). -/
structure RecordingArtifact where
  samples : List ℤ
  duration : ℚ
deriving DecidableEq, Repr

/-- The mutable state of `AudioManager`: the `recording` flag and the
`frames` buffer of chunks in arrival order. -/
structure AudioState where
  recording : Bool
  frames : List (List ℤ)
deriving DecidableEq, Repr

/-- `AudioManager.save_recording`: `None` when the frame buffer is empty or
the concatenation has size zero; otherwise the concatenation of all buffered
chunks in arrival order, with duration `totalFrames / sampleRate`. -/
def saveRecording (frames : List (List ℤ)) (sampleRate : ℚ) : Option RecordingArtifact :=
  if frames = [] then none
  else
    let recording := frames.flatten
    if recording.length = 0 then none
    else some ⟨recording, (recording.length : ℚ) / sampleRate⟩

/-- `AudioManager.start_recording`: a no-op returning `False` when already
recording; otherwise reset the frame buffer and set `recording`, then open the
stream — `deviceOk` is whether `sd.InputStream(...)`/`start()` succeeds; on
failure the handler clears `recording` again and returns `False`. -/
def audioStartRecording (st : AudioState) (deviceOk : Bool) : AudioState × Bool :=
  if st.recording then (st, false)
  else if deviceOk then ({ recording := true, frames := [] }, true)
  else ({ recording := false, frames := [] }, false)

/-- `AudioManager.stop_recording`: `None` when no recording is in progress;
otherwise clear `recording` (stream teardown and feedback sound elided) and
return `save_recording`'s result. -/
def stopRecording (st : AudioState) (sampleRate : ℚ) :
    AudioState × Option RecordingArtifact :=
  if st.recording = false then (st, none)
  else ({ st with recording := false }, saveRecording st.frames sampleRate)

/-- `AudioManager.callback`: append the delivered block to `frames` iff the
worker is still recording and the block is present (`indata is not None`). -/
def audioCallback (st : AudioState) (indata : Option (List ℤ)) : AudioState :=
  match indata with
  | some chunk => if st.recording then { st with frames := st.frames ++ [chunk] } else st
  | none => st

/-! ## Session coordination (`main.py`, `VoiceToTextApp`)

The coordinator is modelled as a small-step transition system over the shared
flags of `VoiceToTextApp` plus the phase of each spawned
`_recording_worker` thread.  Each `AppEvent` is one atomic observable step of
one thread: the hotkey callback (`on_hotkey_pressed`) runs to completion, and
a worker thread advances through `start_recording` on the audio manager, the
`while self.is_recording and self.running` wait loop, and the
finalization pipeline (transcribe / insert / cleanup). -/

/-- Phase of one spawned `_recording_worker` thread. -/
inductive WorkerPhase
  /-- Spawned by `start_recording`, has not yet called
  `audio_manager.start_recording()`. -/
  | spawned
  /-- Inside the `while self.is_recording and self.running` wait loop
  (the source ignores the Boolean result of `audio_manager.start_recording()`,
  so the loop is entered whether or not the device opened). -/
  | looping
  /-- Has called `audio_manager.stop_recording()` and is running the
  transcription/insertion pipeline. -/
  | finalizing
  /-- Finished: the `finally` block has run. -/
  | done
deriving DecidableEq, Repr

/-- The coordinator state: `VoiceToTextApp.is_recording`, `running`, the
spawned worker threads, and counters of the calls that reached
`AudioManager.start_recording` / `stop_recording`. -/
structure AppState where
  isRecording : Bool
  running : Bool
  workers : List WorkerPhase
  audioStartCalls : ℕ
  audioStopCalls : ℕ
deriving DecidableEq, Repr

def initApp : AppState := ⟨false, true, [], 0, 0⟩

/-- Atomic scheduler events.  `trigger` is one complete run of
`on_hotkey_pressed`; the `worker…` events advance worker `i` by one observable
step, and are no-ops when that worker is not in the phase that enables them
(the scheduler cannot run a thread past its current program point). -/
inductive AppEvent
  /-- `on_hotkey_pressed`: `start_recording()` when `is_recording` is false
  (set the flag, spawn a worker), else `stop_recording()` (clear the flag). -/
  | trigger
  /-- Worker `i` executes `audio_manager.start_recording()`; `deviceOk` is
  whether the device opened.  The worker ignores the result either way. -/
  | workerStartAudio (i : ℕ) (deviceOk : Bool)
  /-- Worker `i` observes `¬(is_recording ∧ running)`, exits the wait loop and
  calls `audio_manager.stop_recording()`. -/
  | workerStopAudio (i : ℕ)
  /-- Worker `i` completes the pipeline; its `finally` clears `is_recording`. -/
  | workerFinish (i : ℕ)
deriving DecidableEq, Repr

/-- One step of the coordinator transition system. -/
def stepApp (s : AppState) : AppEvent → AppState
  | AppEvent.trigger =>
    if s.isRecording = false then
      { s with isRecording := true, workers := s.workers ++ [WorkerPhase.spawned] }
    else
      { s with isRecording := false }
  | AppEvent.workerStartAudio i _deviceOk =>
    if s.workers.getD i WorkerPhase.done = WorkerPhase.spawned then
      { s with workers := s.workers.set i WorkerPhase.looping,
               audioStartCalls := s.audioStartCalls + 1 }
    else s
  | AppEvent.workerStopAudio i =>
    if s.workers.getD i WorkerPhase.done = WorkerPhase.looping
        ∧ ¬(s.isRecording = true ∧ s.running = true) then
      { s with workers := s.workers.set i WorkerPhase.finalizing,
               audioStopCalls := s.audioStopCalls + 1 }
    else s
  | AppEvent.workerFinish i =>
    if s.workers.getD i WorkerPhase.done = WorkerPhase.finalizing then
      { s with workers := s.workers.set i WorkerPhase.done, isRecording := false }
    else s

/-- Run a list of scheduler events from a state. -/
def runApp (s : AppState) (evs : List AppEvent) : AppState :=
  evs.foldl stepApp s

/-- The trace exhibiting a Trigger delivered during finalization: record,
stop, let the worker enter the pipeline, then trigger again and let the new
worker reach `audio_manager.start_recording()` while worker 0 is still
finalizing. -/
def finalizingTrace : List AppEvent :=
  [AppEvent.trigger, AppEvent.workerStartAudio 0 true, AppEvent.trigger,
   AppEvent.workerStopAudio 0, AppEvent.trigger, AppEvent.workerStartAudio 1 true]

/-! ## The finalization pipeline (`_recording_worker`, lines 130–163)

What the worker does after `audio_manager.stop_recording()` returns is a pure
decision tree over the returned file, the filesystem check, the transcription
result and the primary-insertion outcome.  It is modelled as the ordered list
of collaborator calls the worker makes. -/

/-- Observable collaborator calls of the finalization pipeline. -/
inductive Call
  /-- `self.speech_recognizer.transcribe(audio_file)` -/
  | transcribe
  /-- `self.text_inserter.insert_text(transcribed_text)` -/
  | insertPrimary
  /-- `self.text_inserter.insert_text_clipboard(transcribed_text)` -/
  | insertClipboard
  /-- `os.remove(audio_file)` -/
  | removeFile
deriving DecidableEq, Repr

/-- The calls the worker makes after `stop_recording`, from
`main.py` lines 130–163.  `audioFile` is `stop_recording`'s return value
(`None` or a path; a path is truthy iff non-empty), `fileOk` the
`os.path.exists` test, `transcribed` the transcriber's result, `insertOk` the
Boolean returned by the primary `insert_text`. -/
def pipelineCalls (audioFile : Option PyStr) (fileOk : Bool)
    (transcribed : Option PyStr) (insertOk : Bool) : List Call :=
  match audioFile with
  | none => []
  | some f =>
    if f ≠ [] ∧ fileOk = true then
      Call.transcribe ::
        ((match transcribed with
          | some text =>
            if text ≠ [] ∧ pyStrip text ≠ [] then
              Call.insertPrimary :: (if insertOk then [] else [Call.insertClipboard])
            else []
          | none => []) ++ [Call.removeFile])
    else []

/-! ## TextInserter (`text_inserter.py`) -/

/-- The clipboard-visible world: the clipboard contents and the sequence of
texts pasted (via `pyautogui.hotkey('ctrl', 'v')`) so far. -/
structure ClipWorld where
  clipboard : PyStr
  pasted : List PyStr
deriving DecidableEq, Repr

/-- `TextInserter.insert_text_clipboard`: read the current clipboard into
`original_clipboard`, copy the stripped text, paste it, then restore the
original clipboard.  The body runs under `try`: `failStep = some k` means the
`k`-th operation (0 = the initial `pyperclip.paste()`, 1 = the first
`pyperclip.copy`, 2 = the paste keystroke, 3 = the restoring
`pyperclip.copy`) raises, the handler returns `False`, and the world keeps
the effects of the operations already performed. -/
def insertTextClipboard (text : PyStr) (w : ClipWorld) (failStep : Option ℕ) :
    ClipWorld × Bool :=
  if failStep = some 0 then (w, false) else
  let original := w.clipboard
  if failStep = some 1 then (w, false) else
  let w1 : ClipWorld := { w with clipboard := pyStrip text }
  if failStep = some 2 then (w1, false) else
  let w2 : ClipWorld := { w1 with pasted := w1.pasted ++ [w1.clipboard] }
  if failStep = some 3 then (w2, false) else
  ({ w2 with clipboard := original }, true)

/-! ## ConfigManager (`config_manager.py`)

JSON values are modelled by `JVal`; a parsed JSON object (a Python dict) by an
association list with the first binding of a key the authoritative one, as
`json.load` produces dicts with unique keys.  A file that is missing or fails
to parse is the `none` argument below: `_load_json_file` returns `{}` for
both. -/

/-- JSON values. -/
inductive JVal
  | null
  | bool (b : Bool)
  | num (q : ℚ)
  | str (s : PyStr)
  | arr (elems : List JVal)
  | obj (fields : List (PyStr × JVal))

/-- A parsed JSON object / Python dict. -/
abbrev Config := List (PyStr × JVal)

/-- Python `dict` lookup (`config.get(key)` without default). -/
def lookupKey : Config → PyStr → Option JVal
  | [], _ => none
  | (k, v) :: rest, key => if k = key then some v else lookupKey rest key

/-- Python `dict` assignment of one key: replace the binding if present,
append it otherwise. -/
def setKey : Config → PyStr → JVal → Config
  | [], key, v => [(key, v)]
  | (k, w) :: rest, key, v =>
    if k = key then (k, v) :: rest else (k, w) :: setKey rest key v

/-- Python `config.update(user_config)`: assign every binding of
`user_config` into `config`, in order. -/
def dictUpdate (config userConfig : Config) : Config :=
  userConfig.foldl (fun acc kv => setKey acc kv.1 kv.2) config

/-- `ConfigManager._load_json_file`: a missing file or a `JSONDecodeError`
yields the empty dict. -/
def loadJsonFile (parsed : Option Config) : Config :=
  parsed.getD []

/-- `ConfigManager.load_config`: load both files and, when the user dict is
truthy (non-empty), shallow-update the defaults with it. -/
def loadConfig (defaultFile userFile : Option Config) : Config :=
  let config := loadJsonFile defaultFile
  let userConfig := loadJsonFile userFile
  match userConfig with
  | [] => config
  | _ :: _ => dictUpdate config userConfig

/-- `ConfigManager.get`: the stored value, or the supplied default when the
key is absent. -/
def configGet (config : Config) (key : PyStr) (dflt : JVal) : JVal :=
  (lookupKey config key).getD dflt

/-- `HotkeyDetector.__init__` line 9: the hotkey string is
`config.get('hotkey', '<ctrl>+<alt>+v')` — the hard-coded default applies
exactly when the configuration has no `hotkey` key. -/
def initHotkeyString (configHotkey : Option PyStr) : PyStr :=
  configHotkey.getD "<ctrl>+<alt>+v".data

/-! ## Claim theorems -/

/-- C1: the generalized match predicate of the spec (every required
identifier satisfied — characters exactly, modifiers by either side) is NOT
what gates Trigger emission.  With hotkey `<ctrl>+<shift>+s` and events
pressing left-ctrl, left-shift and `s`, every parsed required key is
satisfied, yet no Trigger is ever emitted; with hotkey `<ctrl>+<alt>+<shift>+v`
and only ctrl, alt and `v` pressed, the required shift keys are NOT satisfied,
yet a Trigger is emitted.  The firing test is the literal ctrl+alt+v
special case. -/
theorem hotkey_match_is_special_cased :
    (∀ k ∈ parseHotkey "<ctrl>+<shift>+s".data,
        specSatisfies (runDetector "<ctrl>+<shift>+s".data initDetector
          [⟨1000, KeyEdge.down, Key.ctrl_l⟩, ⟨1000, KeyEdge.down, Key.shift_l⟩,
           ⟨1000, KeyEdge.down, Key.char 's'⟩]).1.pressed k = true) ∧
    (runDetector "<ctrl>+<shift>+s".data initDetector
      [⟨1000, KeyEdge.down, Key.ctrl_l⟩, ⟨1000, KeyEdge.down, Key.shift_l⟩,
       ⟨1000, KeyEdge.down, Key.char 's'⟩]).2 = [] ∧
    Key.shift_l ∈ parseHotkey "<ctrl>+<alt>+<shift>+v".data ∧
    specSatisfies (runDetector "<ctrl>+<alt>+<shift>+v".data initDetector
      [⟨1000, KeyEdge.down, Key.ctrl_l⟩, ⟨1000, KeyEdge.down, Key.alt_l⟩,
       ⟨1000, KeyEdge.down, Key.char 'v'⟩]).1.pressed Key.shift_l = false ∧
    (runDetector "<ctrl>+<alt>+<shift>+v".data initDetector
      [⟨1000, KeyEdge.down, Key.ctrl_l⟩, ⟨1000, KeyEdge.down, Key.alt_l⟩,
       ⟨1000, KeyEdge.down, Key.char 'v'⟩]).2 = [1000] := by
  decide

/-- C2 (counterexample): a Trigger delivered while the previous worker is
still finalizing is NOT dropped.  After record → stop → the worker enters the
pipeline, `is_recording` is false and worker 0 is finalizing; the next Trigger
spawns a second worker, and its `audio_manager.start_recording()` call happens
while worker 0's pipeline is still incomplete — a second `start()` before the
previous pipeline ends. -/
theorem trigger_during_finalizing_starts_second_capture :
    (runApp initApp (finalizingTrace.take 4)).workers = [WorkerPhase.finalizing] ∧
    (runApp initApp (finalizingTrace.take 4)).isRecording = false ∧
    (runApp initApp (finalizingTrace.take 4)).audioStartCalls = 1 ∧
    (stepApp (runApp initApp (finalizingTrace.take 4)) AppEvent.trigger).isRecording
      = true ∧
    (stepApp (runApp initApp (finalizingTrace.take 4)) AppEvent.trigger).workers
      = [WorkerPhase.finalizing, WorkerPhase.spawned] ∧
    (runApp initApp finalizingTrace).audioStartCalls = 2 ∧
    (runApp initApp finalizingTrace).workers
      = [WorkerPhase.finalizing, WorkerPhase.looping] := by
  decide

/-- C2 (amended): the only Triggers that do not start a capture are those
delivered while `is_recording` is true — such a Trigger just clears the flag,
spawning no worker and reaching no `start()` call.  (A Trigger delivered while
the previous worker is finalizing but `is_recording` is already false starts a
new recording; see the counterexample.) -/
theorem trigger_while_recording_never_starts_capture (s : AppState)
    (h : s.isRecording = true) :
    stepApp s AppEvent.trigger = { s with isRecording := false } := by
  simp [stepApp, h]

theorem trigger_while_recording_never_starts_capture_witness :
    (⟨true, true, [WorkerPhase.looping], 1, 0⟩ : AppState).isRecording = true ∧
    stepApp ⟨true, true, [WorkerPhase.looping], 1, 0⟩ AppEvent.trigger
      = ⟨false, true, [WorkerPhase.looping], 1, 0⟩ :=
  ⟨rfl, trigger_while_recording_never_starts_capture
    ⟨true, true, [WorkerPhase.looping], 1, 0⟩ rfl⟩

/-- C6: when the device fails to open, `AudioManager.start_recording` does
report the failure (it returns `False` and resets its own state), but the
coordinator ignores that result: after the failed start the session still has
`is_recording = true`, the worker stays in its wait loop (it can neither stop
the audio nor finish), and the NEXT Trigger does not start a new recording —
it merely clears the flag of the phantom session.  The session does not
remain in (or return to) Idle on this failure path. -/
theorem device_failure_leaves_session_recording :
    audioStartRecording ⟨false, []⟩ false = (⟨false, []⟩, false) ∧
    (runApp initApp [AppEvent.trigger, AppEvent.workerStartAudio 0 false]).isRecording
      = true ∧
    stepApp (runApp initApp [AppEvent.trigger, AppEvent.workerStartAudio 0 false])
      (AppEvent.workerStopAudio 0)
      = runApp initApp [AppEvent.trigger, AppEvent.workerStartAudio 0 false] ∧
    stepApp (runApp initApp [AppEvent.trigger, AppEvent.workerStartAudio 0 false])
      (AppEvent.workerFinish 0)
      = runApp initApp [AppEvent.trigger, AppEvent.workerStartAudio 0 false] ∧
    (stepApp (runApp initApp [AppEvent.trigger, AppEvent.workerStartAudio 0 false])
      AppEvent.trigger).isRecording = false ∧
    (stepApp (runApp initApp [AppEvent.trigger, AppEvent.workerStartAudio 0 false])
      AppEvent.trigger).workers
      = (runApp initApp [AppEvent.trigger, AppEvent.workerStartAudio 0 false]).workers ∧
    (stepApp (runApp initApp [AppEvent.trigger, AppEvent.workerStartAudio 0 false])
      AppEvent.trigger).audioStartCalls
      = (runApp initApp
          [AppEvent.trigger, AppEvent.workerStartAudio 0 false]).audioStartCalls := by
  decide

/-- C8 (counterexample): an unparsable hotkey string does not fall back to the
hard-coded default combination.  `"xy"` parses to the empty key set — not to
the default ctrl+alt+v keys — and with that configuration the firing check
rejects every pressed-key set: the parsed configuration can never trigger. -/
theorem unparsable_hotkey_no_fallback_never_fires :
    parseHotkey "xy".data = ∅ ∧
    parseHotkey "xy".data ≠ parseHotkey (initHotkeyString none) ∧
    ∀ pressed : Finset Key, checkHotkeyCombination "xy".data pressed = false := by
  refine ⟨by decide, by decide, fun pressed => rfl⟩

/-- C8 (amended): the hard-coded default `<ctrl>+<alt>+v` is used exactly when
the configuration has no `hotkey` entry at all; a configured string — parsable
or not — is taken as-is.  Parsing is total (never refuses to start), but an
unparsable string is not replaced by the default. -/
theorem default_hotkey_used_only_when_missing (s : PyStr) :
    initHotkeyString (some s) = s ∧
    initHotkeyString none = "<ctrl>+<alt>+v".data ∧
    parseHotkey (initHotkeyString none)
      = {Key.ctrl_l, Key.ctrl_r, Key.alt_l, Key.alt_r, Key.char 'v'} := by
  exact ⟨rfl, rfl, by decide⟩

lemma onKeyEvent_fired_lastTriggerTime (hs : PyStr) (st : DetectorState)
    (e : KeyEvent) (h : (onKeyEvent hs st e).2 = true) :
    (onKeyEvent hs st e).1.lastTriggerTime = e.time ∧
    st.lastTriggerTime + debounceDelay ≤ e.time := by
  rcases e with ⟨t, edge, k⟩
  cases edge
  case up => simp [onKeyEvent] at h
  case down =>
    simp only [onKeyEvent] at h ⊢
    by_cases hc : checkHotkeyCombination hs (pressKey st.pressed k) = true
    · simp only [hc, if_true, triggerCallback] at h ⊢
      by_cases hd : debounceDelay ≤ t - st.lastTriggerTime
      · simp only [hd, if_true]
        exact ⟨by trivial, by linarith⟩
      · simp [hd] at h
    · simp [hc] at h

lemma onKeyEvent_not_fired_lastTriggerTime (hs : PyStr) (st : DetectorState)
    (e : KeyEvent) (h : (onKeyEvent hs st e).2 = false) :
    (onKeyEvent hs st e).1.lastTriggerTime = st.lastTriggerTime := by
  rcases e with ⟨t, edge, k⟩
  cases edge
  case up => rfl
  case down =>
    simp only [onKeyEvent] at h ⊢
    by_cases hc : checkHotkeyCombination hs (pressKey st.pressed k) = true
    · simp only [hc, if_true, triggerCallback] at h ⊢
      by_cases hd : debounceDelay ≤ t - st.lastTriggerTime
      · simp [hd] at h
      · simp [hd]
    · simp [hc]

lemma runDetector_debounce (hs : PyStr) :
    ∀ (evs : List KeyEvent) (st : DetectorState),
      List.Chain' (fun a b => a + debounceDelay ≤ b)
        (st.lastTriggerTime :: (runDetector hs st evs).2) ∧
      (runDetector hs st evs).1.lastTriggerTime
        = ((runDetector hs st evs).2).getLastD st.lastTriggerTime
  | [], st => by simp [runDetector]
  | e :: rest, st => by
    have hrec := runDetector_debounce hs rest (onKeyEvent hs st e).1
    by_cases hf : (onKeyEvent hs st e).2 = true
    · obtain ⟨ht, hle⟩ := onKeyEvent_fired_lastTriggerTime hs st e hf
      rw [ht] at hrec
      simp only [runDetector, hf, if_true, List.singleton_append]
      refine ⟨List.Chain'.cons hle hrec.1, ?_⟩
      rw [List.getLastD_cons]
      exact hrec.2
    · have hf' : (onKeyEvent hs st e).2 = false := by
        cases hb : (onKeyEvent hs st e).2
        · rfl
        · exact absurd hb hf
      have ht := onKeyEvent_not_fired_lastTriggerTime hs st e hf'
      rw [ht] at hrec
      simp only [runDetector, hf', if_false, List.nil_append, Bool.false_eq_true]
      exact hrec

/-- C3: along any event sequence, successive fired Triggers (with
`last_trigger_time`'s initial value `0` prepended) are at least the debounce
window apart — a Trigger fires only when `now - last_trigger_time` is at least
`debounce_delay`, so at most one Trigger per window is emitted however many
matching events arrive — and the final `last_trigger_time` equals the time of
the last fired Trigger (its initial value if none fired): it is updated
exactly when a Trigger fires. -/
theorem debounce_window_between_triggers (hs : PyStr) (evs : List KeyEvent) :
    List.Chain' (fun a b => a + debounceDelay ≤ b)
      (initDetector.lastTriggerTime :: (runDetector hs initDetector evs).2) ∧
    (runDetector hs initDetector evs).1.lastTriggerTime
      = ((runDetector hs initDetector evs).2).getLastD initDetector.lastTriggerTime :=
  runDetector_debounce hs evs initDetector

/-- C4: a capture session with zero buffered samples produces no artifact —
`stop_recording` yields `None` — and on a `None` audio file the worker makes
no collaborator calls at all: the Transcriber is never invoked. -/
theorem empty_capture_yields_none_and_no_transcribe
    (st : AudioState) (rate : ℚ) (h : st.frames.flatten = [])
    (fileOk : Bool) (transcribed : Option PyStr) (insertOk : Bool) :
    (stopRecording st rate).2 = none ∧
    pipelineCalls none fileOk transcribed insertOk = [] := by
  refine ⟨?_, rfl⟩
  unfold stopRecording
  by_cases hr : st.recording = false
  · simp [hr]
  · simp only [hr, if_false]
    unfold saveRecording
    rcases hf : st.frames with _ | ⟨c, rest⟩
    · simp
    · rw [if_neg (by simp)]
      rw [hf] at h
      simp [h]

theorem empty_capture_yields_none_and_no_transcribe_witness :
    (⟨true, []⟩ : AudioState).frames.flatten = [] ∧
    ((stopRecording ⟨true, []⟩ 16000).2 = none ∧
      pipelineCalls none true (some "hi".data) true = []) :=
  ⟨rfl, empty_capture_yields_none_and_no_transcribe ⟨true, []⟩ 16000 rfl
    true (some "hi".data) true⟩

/-- C5 (counterexample): a non-empty chunk sequence whose total frame count is
zero yields NO artifact — `save_recording` hits the `recording.size == 0`
branch and returns `None` — rather than an artifact of duration
`0 / sampleRate`. -/
theorem all_zero_chunks_yield_no_artifact :
    saveRecording [[]] 16000 = none ∧
    (stopRecording ⟨true, [[]]⟩ 16000).2 = none :=
  ⟨rfl, rfl⟩

/-- C5 (amended): for every buffered chunk sequence with a positive total
frame count, `save_recording` (hence `stop_recording` on a live session)
returns the artifact whose samples are the chunks concatenated in arrival
order and whose duration is `(s1+...+sN) / sampleRate`. -/
theorem artifact_duration_total_frames_div_rate
    (frames : List (List ℤ)) (rate : ℚ) (h : frames.flatten ≠ []) :
    saveRecording frames rate
      = some ⟨frames.flatten, (((frames.map List.length).sum : ℕ) : ℚ) / rate⟩ ∧
    (stopRecording ⟨true, frames⟩ rate).2 = saveRecording frames rate := by
  refine ⟨?_, rfl⟩
  have hne : frames ≠ [] := by
    intro hf
    rw [hf] at h
    exact h rfl
  unfold saveRecording
  have hlen0 : frames.flatten.length ≠ 0 := fun h0 => h (List.length_eq_zero.mp h0)
  rw [if_neg hne, if_neg hlen0]
  have hlen : frames.flatten.length = (frames.map List.length).sum :=
    List.length_flatten frames
  rw [hlen]

theorem artifact_duration_total_frames_div_rate_witness :
    ([[1, 2], [3]] : List (List ℤ)).flatten ≠ [] ∧
    (saveRecording [[1, 2], [3]] 16000
      = some ⟨([[1, 2], [3]] : List (List ℤ)).flatten,
          ((([[1, 2], [3]] : List (List ℤ)).map List.length).sum : ℚ) / 16000⟩ ∧
      (stopRecording ⟨true, [[1, 2], [3]]⟩ 16000).2
        = saveRecording [[1, 2], [3]] 16000) :=
  ⟨by decide, artifact_duration_total_frames_div_rate [[1, 2], [3]] 16000 (by decide)⟩

/-- C7: in a cycle whose transcription produced non-empty text, the primary
insertion is attempted exactly once, and the clipboard fallback is attempted
exactly once if — and only if — the primary insertion failed. -/
theorem clipboard_fallback_exactly_once
    (f : PyStr) (hf : f ≠ []) (text : PyStr)
    (h1 : text ≠ []) (h2 : pyStrip text ≠ []) (insertOk : Bool) :
    (pipelineCalls (some f) true (some text) insertOk).count Call.insertPrimary = 1 ∧
    (pipelineCalls (some f) true (some text) insertOk).count Call.insertClipboard
      = (if insertOk = true then 0 else 1) ∧
    (insertOk = true →
      Call.insertClipboard ∉ pipelineCalls (some f) true (some text) insertOk) := by
  cases insertOk <;>
    simp [pipelineCalls, hf, h1, h2, List.count_cons, List.count_append]

theorem clipboard_fallback_exactly_once_witness :
    (("f.wav".data : PyStr) ≠ [] ∧ ("hi".data : PyStr) ≠ [] ∧
      pyStrip "hi".data ≠ []) ∧
    ((pipelineCalls (some "f.wav".data) true (some "hi".data) false).count
        Call.insertPrimary = 1 ∧
      (pipelineCalls (some "f.wav".data) true (some "hi".data) false).count
        Call.insertClipboard = (if false = true then 0 else 1) ∧
      (false = true →
        Call.insertClipboard ∉ pipelineCalls (some "f.wav".data) true
          (some "hi".data) false)) :=
  ⟨⟨by decide, by decide, by decide⟩,
    clipboard_fallback_exactly_once "f.wav".data (by decide) "hi".data
      (by decide) (by decide) false⟩

/-- C9: whenever `insert_text_clipboard` succeeds (returns `True`), the
clipboard contents after the call equal the clipboard contents before it (the
prior contents are saved and restored around the paste), and the one pasted
text is the stripped input text. -/
theorem clipboard_restored_on_success
    (text : PyStr) (w : ClipWorld) (failStep : Option ℕ)
    (h : (insertTextClipboard text w failStep).2 = true) :
    (insertTextClipboard text w failStep).1.clipboard = w.clipboard ∧
    (insertTextClipboard text w failStep).1.pasted = w.pasted ++ [pyStrip text] := by
  unfold insertTextClipboard at h ⊢
  split_ifs at h ⊢
  simp_all

theorem clipboard_restored_on_success_witness :
    (insertTextClipboard " hi ".data ⟨"old".data, []⟩ none).2 = true ∧
    ((insertTextClipboard " hi ".data ⟨"old".data, []⟩ none).1.clipboard
        = (⟨"old".data, []⟩ : ClipWorld).clipboard ∧
      (insertTextClipboard " hi ".data ⟨"old".data, []⟩ none).1.pasted
        = (⟨"old".data, []⟩ : ClipWorld).pasted ++ [pyStrip " hi ".data]) :=
  ⟨by decide, clipboard_restored_on_success " hi ".data ⟨"old".data, []⟩ none (by decide)⟩

lemma lookupKey_setKey (c : Config) (k : PyStr) (v : JVal) (q : PyStr) :
    lookupKey (setKey c k v) q = if k = q then some v else lookupKey c q := by
  induction c with
  | nil => simp [setKey, lookupKey]
  | cons hd tl ih =>
    obtain ⟨a, w⟩ := hd
    by_cases hak : a = k <;> by_cases haq : a = q <;> by_cases hkq : k = q <;>
      simp_all [setKey, lookupKey]

lemma lookupKey_eq_none_of_not_mem (c : Config) (q : PyStr)
    (h : q ∉ c.map Prod.fst) :
    lookupKey c q = none := by
  induction c with
  | nil => rfl
  | cons hd tl ih =>
    obtain ⟨a, w⟩ := hd
    simp only [List.map_cons, List.mem_cons] at h
    push_neg at h
    have hne : ¬a = q := fun ha => h.1 ha.symm
    simp only [lookupKey, if_neg hne]
    exact ih h.2

lemma lookupKey_dictUpdate (u : Config) :
    ∀ (c : Config), (u.map Prod.fst).Nodup →
      ∀ q, lookupKey (dictUpdate c u) q
        = ((lookupKey u q).orElse fun _ => lookupKey c q) := by
  induction u with
  | nil =>
    intro c _ q
    simp [dictUpdate, lookupKey, Option.orElse]
  | cons hd tl ih =>
    intro c hnd q
    obtain ⟨k0, v0⟩ := hd
    simp only [List.map_cons, List.nodup_cons] at hnd
    have hstep : dictUpdate c ((k0, v0) :: tl) = dictUpdate (setKey c k0 v0) tl := rfl
    rw [hstep, ih (setKey c k0 v0) hnd.2 q, lookupKey_setKey]
    by_cases hk : k0 = q
    · subst hk
      have htl : lookupKey tl k0 = none :=
        lookupKey_eq_none_of_not_mem tl k0 hnd.1
      simp [lookupKey, htl, Option.orElse]
    · simp [lookupKey, hk, Option.orElse]

/-- C10: `load_config` merges shallowly — the merged top-level value of a key
is the user file's binding when present (wholly replacing the default
section's value, nested contents included) and the default file's binding
otherwise; a missing or unparsable file contributes nothing; and `get`
returns the stored value when the key is present and the supplied default
exactly when it is absent. -/
theorem config_merge_shallow
    (d u : Config) (hu : (u.map Prod.fst).Nodup) (k : PyStr) (dflt : JVal) :
    lookupKey (loadConfig (some d) (some u)) k
      = ((lookupKey u k).orElse fun _ => lookupKey d k) ∧
    loadConfig (some d) none = d ∧
    loadConfig none (some u) = dictUpdate [] u ∧
    (lookupKey (loadConfig (some d) (some u)) k = none →
      configGet (loadConfig (some d) (some u)) k dflt = dflt) ∧
    (∀ v, lookupKey (loadConfig (some d) (some u)) k = some v →
      configGet (loadConfig (some d) (some u)) k dflt = v) := by
  have hmain : lookupKey (loadConfig (some d) (some u)) k
      = ((lookupKey u k).orElse fun _ => lookupKey d k) := by
    cases u with
    | nil => simp [loadConfig, loadJsonFile, lookupKey, Option.orElse]
    | cons hd tl =>
      show lookupKey (dictUpdate d (hd :: tl)) k = _
      exact lookupKey_dictUpdate (hd :: tl) d hu k
  refine ⟨hmain, rfl, ?_, ?_, ?_⟩
  · cases u with
    | nil => rfl
    | cons hd tl => rfl
  · intro hnone
    simp [configGet, hnone]
  · intro v hv
    simp [configGet, hv]

theorem config_merge_shallow_witness :
    (([("audio".data, JVal.obj [])].map Prod.fst).Nodup) ∧
    (lookupKey
        (loadConfig
          (some [("audio".data, JVal.obj [("rate".data, JVal.num 16000)]),
                 ("hotkey".data, JVal.str "<ctrl>+<alt>+v".data)])
          (some [("audio".data, JVal.obj [])]))
        "audio".data
      = ((lookupKey [("audio".data, JVal.obj [])] "audio".data).orElse
          fun _ =>
            lookupKey
              [("audio".data, JVal.obj [("rate".data, JVal.num 16000)]),
               ("hotkey".data, JVal.str "<ctrl>+<alt>+v".data)] "audio".data) ∧
      loadConfig
          (some [("audio".data, JVal.obj [("rate".data, JVal.num 16000)]),
                 ("hotkey".data, JVal.str "<ctrl>+<alt>+v".data)]) none
        = [("audio".data, JVal.obj [("rate".data, JVal.num 16000)]),
           ("hotkey".data, JVal.str "<ctrl>+<alt>+v".data)] ∧
      loadConfig none (some [("audio".data, JVal.obj [])])
        = dictUpdate [] [("audio".data, JVal.obj [])] ∧
      (lookupKey
          (loadConfig
            (some [("audio".data, JVal.obj [("rate".data, JVal.num 16000)]),
                   ("hotkey".data, JVal.str "<ctrl>+<alt>+v".data)])
            (some [("audio".data, JVal.obj [])]))
          "audio".data = none →
        configGet
          (loadConfig
            (some [("audio".data, JVal.obj [("rate".data, JVal.num 16000)]),
                   ("hotkey".data, JVal.str "<ctrl>+<alt>+v".data)])
            (some [("audio".data, JVal.obj [])]))
          "audio".data JVal.null = JVal.null) ∧
      (∀ v, lookupKey
          (loadConfig
            (some [("audio".data, JVal.obj [("rate".data, JVal.num 16000)]),
                   ("hotkey".data, JVal.str "<ctrl>+<alt>+v".data)])
            (some [("audio".data, JVal.obj [])]))
          "audio".data = some v →
        configGet
          (loadConfig
            (some [("audio".data, JVal.obj [("rate".data, JVal.num 16000)]),
                   ("hotkey".data, JVal.str "<ctrl>+<alt>+v".data)])
            (some [("audio".data, JVal.obj [])]))
          "audio".data JVal.null = v)) :=
  ⟨by decide,
    config_merge_shallow
      [("audio".data, JVal.obj [("rate".data, JVal.num 16000)]),
       ("hotkey".data, JVal.str "<ctrl>+<alt>+v".data)]
      [("audio".data, JVal.obj [])] (by decide) "audio".data JVal.null⟩
